import Mathlib

/-!
Verification development for the GI-Translation desktop utility
(`src/main.py`).  The lookup/cache core is embedded shallowly:

* `find_aliases` models `re.findall('\\{([^}]+)}', exegesis)`;
* `load_main_data` / `load_sk_main_data` model the index builders of
  `TranslatorApp.load_main_data` / `load_sk_main_data`;
* `get_country_data` models `TranslatorApp.get_country_data` (and the
  textually identical `get_sk_country_data`, which differs only in the
  cache object it is handed);
* `translate` models `TranslatorApp.translate`, including the fact that
  a missing `name_to_info` / `sk_name_to_info` attribute (after a failed
  load) makes the lookup raise `AttributeError`, with all mutations
  performed before the raise kept.

Python dictionaries are modelled as association lists where an insert
prepends, so that a lookup (first match) sees the most recent binding,
matching `dict.__setitem__` overwrite semantics.  The file system is a
function from country code to the outcome of reading
`Database/Cs{country}.json`.
-/

namespace GITranslation

/-- A Python dict lookup: first (most recently inserted) binding wins. -/
def dlookup {α : Type} (d : List (String × α)) (k : String) : Option α :=
  match d with
  | [] => none
  | (k', v) :: rest => if k' = k then some v else dlookup rest k

/-- A Python dict assignment `d[k] = v`: the new binding shadows any
older binding of `k`. -/
def dinsert {α : Type} (d : List (String × α)) (k : String) (v : α) :
    List (String × α) :=
  (k, v) :: d

/-- The scanner behind `re.findall('\\{([^}]+)}', s)`: outside a
candidate match (`st = none`) a `\x7b` opens one; inside (`st = some acc`,
`acc` holding the scanned characters in reverse) any character other
than `\x7d` is consumed by `[^}]+`, and a `\x7d` closes the match, which
counts only if at least one character was consumed. -/
def scanAliases (st : Option (List Char)) : List Char → List String
  | [] => []
  | c :: rest =>
    match st with
    | none =>
      if c = '{' then scanAliases (some []) rest
      else scanAliases none rest
    | some acc =>
      if c = '}' then
        if acc.isEmpty then scanAliases none rest
        else String.mk acc.reverse :: scanAliases none rest
      else scanAliases (some (c :: acc)) rest

/-- `re.findall('\\{([^}]+)}', s)` as used by the index builders. -/
def find_aliases (s : String) : List String :=
  scanAliases none s.data

/-- The value part of one entry of a primary dictionary file
(`CsOne_main.json` / `CsSK_main.json`): `Country` and `HID` are accessed
with `info['Country']` / `info['HID']`, `exegesis` with
`info.get('exegesis', '')`, hence optional. -/
structure MainEntry where
  Country : String
  HID : String
  exegesis : Option String
deriving DecidableEq, Repr

/-- The record stored in `name_to_info` for a name or alias. -/
structure Info where
  Country : String
  HID : String
deriving DecidableEq, Repr

/-- A parsed primary dictionary file, in file (= Python dict iteration)
order. -/
abbrev MainData := List (String × MainEntry)

/-- The `{Country, HID}` record an entry contributes to the index. -/
def infoOf (e : MainEntry) : Info := ⟨e.Country, e.HID⟩

/-- One iteration of the loop in `load_main_data`: insert the canonical
name, then every alias extracted from `exegesis`, all mapping to the
same `{Country, HID}` record. -/
def processEntry (d : List (String × Info)) (p : String × MainEntry) :
    List (String × Info) :=
  (find_aliases (p.2.exegesis.getD "")).foldl
    (fun d a => dinsert d a (infoOf p.2))
    (dinsert d p.1 (infoOf p.2))

/-- The keys a single source entry writes into the index: its canonical
name followed by its extracted aliases. -/
def entryKeys (p : String × MainEntry) : List String :=
  p.1 :: find_aliases (p.2.exegesis.getD "")

/-- The loop of `load_main_data` run from an arbitrary starting dict. -/
def buildIndexAux (d : List (String × Info)) (l : MainData) :
    List (String × Info) :=
  l.foldl processEntry d

/-- `name_to_info` as built by a successful `load_main_data` from a
parsed `CsOne_main.json` (the SK builder is identical). -/
def buildIndex (l : MainData) : List (String × Info) :=
  buildIndexAux [] l

/-- The value part of one entry of a country table file: only the
`name` field is read, via `entry.get('name', 'Unknown')`, hence
optional. -/
structure CEntry where
  name : Option String
deriving DecidableEq, Repr

/-- A parsed `Database/Cs{country}.json` file. -/
abbrev CountryTable := List (String × CEntry)

/-- The outcome of reading `Database/Cs{country}.json`: the file may be
absent (`os.path.exists` false), present but failing `json.load`
(caught, logged to stdout), or parse to a table. -/
inductive CFile where
  | absent
  | malformed
  | table (t : CountryTable)
deriving DecidableEq, Repr

/-- The GUI-relevant state of a `TranslatorApp` instance.
`name_to_info` / `sk_name_to_info` are `none` while the attribute has
never been assigned (which is exactly the case after a failed load,
since `load_main_data` assigns it only after `json.load` succeeds). -/
structure AppState where
  name_to_info : Option (List (String × Info))
  sk_name_to_info : Option (List (String × Info))
  country_data_cache : List (String × CountryTable)
  sk_country_data_cache : List (String × CountryTable)
  output_edit_1 : String
  output_edit_2 : String
deriving DecidableEq, Repr

/-- The state right after `initUI`: no index attributes assigned yet,
empty caches, empty output fields. -/
def initialState : AppState :=
  { name_to_info := none
    sk_name_to_info := none
    country_data_cache := []
    sk_country_data_cache := []
    output_edit_1 := ""
    output_edit_2 := "" }

/-- `TranslatorApp.load_main_data`: on a successful read/parse of
`CsOne_main.json` (`res = some d`) it builds `name_to_info`; on any
exception (`res = none`, with `emsg` the stringified exception) it only
writes the error text into the first output field, leaving
`name_to_info` untouched (never assigned when this was the startup
call). -/
def load_main_data (res : Option MainData) (emsg : String) (st : AppState) :
    AppState :=
  match res with
  | some d => { st with name_to_info := some (buildIndex d) }
  | none => { st with output_edit_1 := "加载One主数据时异常：" ++ emsg }

/-- `TranslatorApp.load_sk_main_data`: same shape for the SK track. -/
def load_sk_main_data (res : Option MainData) (emsg : String)
    (st : AppState) : AppState :=
  match res with
  | some d => { st with sk_name_to_info := some (buildIndex d) }
  | none => { st with output_edit_2 := "加载SK主数据时异常：" ++ emsg }

/-- The data-loading part of `TranslatorApp.__init__`: `load_main_data`
then `load_sk_main_data`, from the fresh state. -/
def startup (oneRes skRes : Option MainData) (e1 e2 : String) : AppState :=
  load_sk_main_data skRes e2 (load_main_data oneRes e1 initialState)

/-- `TranslatorApp.get_country_data` (and `get_sk_country_data`, which
has the same body over the other cache): a cache hit returns the cached
table unchanged; otherwise the file named by the country code is read —
a parsed table is cached and returned, an absent or unparsable file
yields `None` with no cache write. -/
def get_country_data (fs : String → CFile)
    (cache : List (String × CountryTable)) (country : String) :
    Option CountryTable × List (String × CountryTable) :=
  match dlookup cache country with
  | some t => (some t, cache)
  | none =>
    match fs country with
    | .table t => (some t, dinsert cache country t)
    | .absent => (none, cache)
    | .malformed => (none, cache)

/-- One track of `TranslatorApp.translate` (lines 337-351 for the
One track, 354-368 for SK): look the text up in the index; on a hit
fetch the country table and test it with Python truthiness
(`if country_data:` — `None` and the empty dict both fail), then read
`country_data.get(hid, \x7b\x7d).get('name', 'Unknown')`.  Returns the text
written to the output field, plus the possibly grown cache. -/
def translateTrack (idx : List (String × Info)) (fs : String → CFile)
    (cache : List (String × CountryTable)) (text : String) :
    String × List (String × CountryTable) :=
  match dlookup idx text with
  | some info =>
    let r := get_country_data fs cache info.Country
    match r.1 with
    | some t =>
      if t.isEmpty then ("未找到翻译数据信息", r.2)
      else (((dlookup t info.HID).getD ⟨none⟩).name.getD "Unknown", r.2)
    | none => ("未找到翻译数据信息", r.2)
  | none => ("无此翻译结果", cache)

/-- The ways the modelled slice of the program can raise. -/
inductive PyError where
  | attributeError
deriving DecidableEq, Repr

/-- Result of a call to `translate`: either a normal return or a raised
exception; in both cases the `TranslatorApp` state as left behind
(mutations made before a raise persist on the object). -/
inductive TResult where
  | ok (st : AppState)
  | raised (e : PyError) (st : AppState)
deriving DecidableEq, Repr

/-- The state a `translate` call leaves behind. -/
def TResult.state : TResult → AppState
  | .ok st => st
  | .raised _ st => st

/-- Whether a `translate` call returned without raising. -/
def TResult.isOk : TResult → Bool
  | .ok _ => true
  | .raised _ _ => false

/-- `TranslatorApp.translate`: empty text clears both output fields and
returns at once; otherwise the One track runs (the membership test
`text in self.name_to_info` raising `AttributeError` if the attribute
was never assigned), then the SK track. -/
def translate (fs : String → CFile) (text : String) (st : AppState) :
    TResult :=
  if text = "" then
    .ok { st with output_edit_1 := "", output_edit_2 := "" }
  else
    match st.name_to_info with
    | none => .raised .attributeError st
    | some idx =>
      let r1 := translateTrack idx fs st.country_data_cache text
      let st1 := { st with output_edit_1 := r1.1, country_data_cache := r1.2 }
      match st1.sk_name_to_info with
      | none => .raised .attributeError st1
      | some idx2 =>
        let r2 := translateTrack idx2 fs st1.sk_country_data_cache text
        .ok { st1 with output_edit_2 := r2.1, sk_country_data_cache := r2.2 }

/-! ### Dictionary lemmas -/

theorem dlookup_dinsert {α : Type} (d : List (String × α)) (k k' : String)
    (v : α) :
    dlookup (dinsert d k v) k' = if k = k' then some v else dlookup d k' :=
  rfl

/-- Folding a run of inserts that all store the same value `v`: any key
in the run ends up at `v`, other keys are untouched. -/
theorem dlookup_foldl_dinsert (v : Info) (as : List String)
    (d : List (String × Info)) (k : String) :
    dlookup (as.foldl (fun d a => dinsert d a v) d) k =
      if k ∈ as then some v else dlookup d k := by
  induction as generalizing d with
  | nil => simp
  | cons a as ih =>
    rw [List.foldl_cons, ih]
    by_cases hmem : k ∈ as
    · simp [hmem]
    · by_cases hak : a = k
      · simp [hmem, hak, dlookup_dinsert]
      · simp [hmem, dlookup_dinsert, hak, Ne.symm hak]

/-- A key the entry defines (its name or one of its aliases) maps to
the entry's record after the entry is processed. -/
theorem dlookup_processEntry_mem (d : List (String × Info))
    (p : String × MainEntry) (k : String) (h : k ∈ entryKeys p) :
    dlookup (processEntry d p) k = some (infoOf p.2) := by
  unfold processEntry
  rw [dlookup_foldl_dinsert]
  rcases List.mem_cons.mp h with hname | halias
  · by_cases hmem : k ∈ find_aliases (p.2.exegesis.getD "")
    · simp [hmem]
    · simp [hmem, dlookup_dinsert, hname]
  · simp [halias]

/-- A key an entry does not define is untouched by processing it. -/
theorem dlookup_processEntry_not_mem (d : List (String × Info))
    (p : String × MainEntry) (k : String) (h : ¬ k ∈ entryKeys p) :
    dlookup (processEntry d p) k = dlookup d k := by
  unfold processEntry
  rw [dlookup_foldl_dinsert]
  rw [entryKeys, List.mem_cons] at h
  push_neg at h
  simp [h.2, dlookup_dinsert, h.1, Ne.symm h.1]

theorem buildIndexAux_cons (d : List (String × Info))
    (p : String × MainEntry) (l : MainData) :
    buildIndexAux d (p :: l) = buildIndexAux (processEntry d p) l :=
  rfl

theorem buildIndexAux_append (d : List (String × Info)) (l1 l2 : MainData) :
    buildIndexAux d (l1 ++ l2) = buildIndexAux (buildIndexAux d l1) l2 := by
  simp [buildIndexAux, List.foldl_append]

/-- A key no entry of `l` defines keeps its prior binding across the
whole loop. -/
theorem dlookup_buildIndexAux_not_def (d : List (String × Info))
    (l : MainData) (k : String) (h : ∀ p ∈ l, ¬ k ∈ entryKeys p) :
    dlookup (buildIndexAux d l) k = dlookup d k := by
  induction l generalizing d with
  | nil => rfl
  | cons p l ih =>
    rw [buildIndexAux_cons, ih _ fun q hq => h q (List.mem_cons_of_mem _ hq),
      dlookup_processEntry_not_mem _ _ _ (h p (List.mem_cons_self p l))]

/-- The binding a key ends up with is the one written by the last entry
that defines it. -/
theorem dlookup_buildIndexAux_last (d : List (String × Info))
    (l1 : MainData) (p : String × MainEntry) (l2 : MainData) (k : String)
    (hk : k ∈ entryKeys p) (h2 : ∀ q ∈ l2, ¬ k ∈ entryKeys q) :
    dlookup (buildIndexAux d (l1 ++ p :: l2)) k = some (infoOf p.2) := by
  rw [buildIndexAux_append, buildIndexAux_cons,
    dlookup_buildIndexAux_not_def _ _ _ h2,
    dlookup_processEntry_mem _ _ _ hk]

/-- `translateTrack` consults the index only through the lookup of its
input text: two inputs with the same index binding behave alike. -/
theorem translateTrack_congr (idx : List (String × Info))
    (fs : String → CFile) (cache : List (String × CountryTable))
    (a b : String) (h : dlookup idx a = dlookup idx b) :
    translateTrack idx fs cache a = translateTrack idx fs cache b := by
  unfold translateTrack
  rw [h]

/-- With nonempty text and both index attributes assigned, `translate`
returns normally: each track writes its `translateTrack` output text and
updated cache into the state. -/
theorem translate_run (fs : String → CFile) (text : String) (st : AppState)
    (idx idx2 : List (String × Info)) (hne : text ≠ "")
    (h1 : st.name_to_info = some idx) (h2 : st.sk_name_to_info = some idx2) :
    translate fs text st = .ok
      { st with
        output_edit_1 := (translateTrack idx fs st.country_data_cache text).1
        country_data_cache := (translateTrack idx fs st.country_data_cache text).2
        output_edit_2 := (translateTrack idx2 fs st.sk_country_data_cache text).1
        sk_country_data_cache :=
          (translateTrack idx2 fs st.sk_country_data_cache text).2 } := by
  unfold translate
  rw [if_neg hne, h1]
  simp only [h2]

/-! ### Claim theorems -/

/-- C1 (code behaviour at the claimed scenario): when the primary
dictionary is missing or malformed at load time, the loader does write
the error string into the first result field — but `name_to_info` is
never assigned, so a subsequent `translate` call on nonempty input
raises `AttributeError` instead of reporting the "no translation
result" sentinel.  Evaluated at the concrete failing input: One
dictionary unreadable, SK dictionary loaded, user types `钟离`. -/
theorem C1_failed_load_translate_raises :
    (startup none (some []) "No such file or directory" "").output_edit_1 =
      "加载One主数据时异常：No such file or directory" ∧
    (startup none (some []) "No such file or directory" "").name_to_info =
      none ∧
    translate (fun _ => CFile.absent) "钟离"
        (startup none (some []) "No such file or directory" "") =
      TResult.raised PyError.attributeError
        (startup none (some []) "No such file or directory" "") := by
  refine ⟨rfl, rfl, ?_⟩
  decide

/-- C2: for a dictionary entry whose `exegesis` contains bracketed
tokens `\x7bX\x7d` and `\x7bY\x7d`, translating the alias `X` and the alias `Y`
each gives exactly the result of translating the canonical name, on the
track built from that dictionary — provided no later entry redefines
any of those keys. -/
theorem C2_alias_translates_like_canonical (l1 l2 : MainData)
    (name : String) (e : MainEntry) (X Y : String)
    (fs : String → CFile) (cache : List (String × CountryTable))
    (hX : X ∈ find_aliases (e.exegesis.getD ""))
    (hY : Y ∈ find_aliases (e.exegesis.getD ""))
    (hlater : ∀ q ∈ l2,
      ¬ X ∈ entryKeys q ∧ ¬ Y ∈ entryKeys q ∧ ¬ name ∈ entryKeys q) :
    translateTrack (buildIndex (l1 ++ (name, e) :: l2)) fs cache X =
      translateTrack (buildIndex (l1 ++ (name, e) :: l2)) fs cache name ∧
    translateTrack (buildIndex (l1 ++ (name, e) :: l2)) fs cache Y =
      translateTrack (buildIndex (l1 ++ (name, e) :: l2)) fs cache name := by
  have hXk : X ∈ entryKeys (name, e) := List.mem_cons_of_mem _ hX
  have hYk : Y ∈ entryKeys (name, e) := List.mem_cons_of_mem _ hY
  have hnk : name ∈ entryKeys (name, e) := by
    unfold entryKeys
    exact List.mem_cons_self _ _
  have lX := dlookup_buildIndexAux_last [] l1 (name, e) l2 X hXk
    fun q hq => ((hlater q hq).1)
  have lY := dlookup_buildIndexAux_last [] l1 (name, e) l2 Y hYk
    fun q hq => ((hlater q hq).2.1)
  have ln := dlookup_buildIndexAux_last [] l1 (name, e) l2 name hnk
    fun q hq => ((hlater q hq).2.2)
  exact ⟨translateTrack_congr _ fs cache _ _ (lX.trans ln.symm),
    translateTrack_congr _ fs cache _ _ (lY.trans ln.symm)⟩

/-- C3: a name present in the index whose country's table file is
absent (and not previously cached) yields the "translation data not
found" sentinel, and the `translate` call returns normally — no
exception escapes. -/
theorem C3_absent_table_sentinel (fs : String → CFile) (st : AppState)
    (idx idx2 : List (String × Info)) (text : String) (info : Info)
    (hne : text ≠ "") (h1 : st.name_to_info = some idx)
    (h2 : st.sk_name_to_info = some idx2)
    (hl : dlookup idx text = some info)
    (hc : dlookup st.country_data_cache info.Country = none)
    (habs : fs info.Country = CFile.absent) :
    (translate fs text st).isOk = true ∧
    (translate fs text st).state.output_edit_1 = "未找到翻译数据信息" := by
  rw [translate_run fs text st idx idx2 hne h1 h2]
  refine ⟨rfl, ?_⟩
  simp [TResult.state, translateTrack, hl, get_country_data, hc, habs]

/-- C4: a cache hit returns the table stored at first load, with the
cache unchanged, whatever the file system now contains — repeated gets
never re-read the file. -/
theorem C4_cache_hit_no_reread (cache : List (String × CountryTable))
    (c : String) (t : CountryTable) (h : dlookup cache c = some t)
    (fs : String → CFile) :
    get_country_data fs cache c = (some t, cache) := by
  unfold get_country_data
  rw [h]

/-- C5: a failed lookup (file absent or unparsable) returns `None` with
the cache unchanged — no negative entry is stored — so a later get for
the same code re-reads the file and succeeds if the file has appeared. -/
theorem C5_miss_not_cached (fs : String → CFile)
    (cache : List (String × CountryTable)) (c : String)
    (hmiss : dlookup cache c = none)
    (hfail : fs c = CFile.absent ∨ fs c = CFile.malformed) :
    get_country_data fs cache c = (none, cache) ∧
    ∀ (fs2 : String → CFile) (t : CountryTable), fs2 c = CFile.table t →
      get_country_data fs2 cache c = (some t, dinsert cache c t) := by
  constructor
  · unfold get_country_data
    rw [hmiss]
    rcases hfail with h | h <;> rw [h]
  · intro fs2 t h2
    unfold get_country_data
    rw [hmiss, h2]

/-- C6: when a key is contributed by two source entries (as name or
alias of each), the entry processed later wins: the built index maps
the key to the later entry's `\x7bCountry, HID\x7d` record (given no still
later entry also defines it). -/
theorem C6_later_entry_overwrites (l1 l2 l3 : MainData)
    (p1 p2 : String × MainEntry) (k : String)
    (_hfst : k ∈ entryKeys p1) (h2 : k ∈ entryKeys p2)
    (h3 : ∀ q ∈ l3, ¬ k ∈ entryKeys q) :
    dlookup (buildIndex (l1 ++ p1 :: l2 ++ p2 :: l3)) k =
      some (infoOf p2.2) := by
  unfold buildIndex
  have hsplit : l1 ++ p1 :: l2 ++ p2 :: l3 = (l1 ++ p1 :: l2) ++ p2 :: l3 := by
    simp
  rw [hsplit]
  exact dlookup_buildIndexAux_last [] (l1 ++ p1 :: l2) p2 l3 k h2 h3

/-- C8: empty input clears both output fields immediately; the indexes,
the caches and the file system are never consulted (the call succeeds
and leaves the caches as they were even when no index attribute was
ever assigned). -/
theorem C8_empty_input_clears (fs : String → CFile) (st : AppState) :
    translate fs "" st =
      TResult.ok { st with output_edit_1 := "", output_edit_2 := "" } := by
  simp [translate]

/-- C9: nonempty input absent from a track's alias index yields the
"no translation result" sentinel on that track (each track judged by
its own index). -/
theorem C9_unknown_input_sentinel (fs : String → CFile) (st : AppState)
    (idx idx2 : List (String × Info)) (text : String)
    (hne : text ≠ "") (h1 : st.name_to_info = some idx)
    (h2 : st.sk_name_to_info = some idx2) :
    (dlookup idx text = none →
      (translate fs text st).state.output_edit_1 = "无此翻译结果") ∧
    (dlookup idx2 text = none →
      (translate fs text st).state.output_edit_2 = "无此翻译结果") := by
  rw [translate_run fs text st idx idx2 hne h1 h2]
  constructor
  · intro hmiss
    simp [TResult.state, translateTrack, hmiss]
  · intro hmiss
    simp [TResult.state, translateTrack, hmiss]

/-- C10: a country table file that parses to the empty JSON object is
cached, yet `translate` — testing the table's Python truthiness, not
its presence — reports the "translation data not found" sentinel for
any name mapping to that country, not the "Unknown" placeholder. -/
theorem C10_empty_table_cached_but_sentinel (fs : String → CFile)
    (st : AppState) (idx idx2 : List (String × Info)) (text : String)
    (info : Info) (hne : text ≠ "") (h1 : st.name_to_info = some idx)
    (h2 : st.sk_name_to_info = some idx2)
    (hl : dlookup idx text = some info)
    (hc : dlookup st.country_data_cache info.Country = none)
    (htab : fs info.Country = CFile.table []) :
    (translate fs text st).isOk = true ∧
    (translate fs text st).state.output_edit_1 = "未找到翻译数据信息" ∧
    (translate fs text st).state.output_edit_1 ≠ "Unknown" ∧
    dlookup (translate fs text st).state.country_data_cache info.Country =
      some [] := by
  rw [translate_run fs text st idx idx2 hne h1 h2]
  refine ⟨rfl, ?_, ?_, ?_⟩ <;>
    simp [TResult.state, translateTrack, hl, get_country_data, hc, htab,
      dlookup_dinsert]

/-- A table file system for the C7 scenario: `CsNatlan.json` parses to
the empty JSON object, every other country file is absent. -/
def c7fs : String → CFile :=
  fun c => if c = "Natlan" then CFile.table [] else CFile.absent

/-- App state for the C7 scenario: the One index maps `X` to Natlan
with HID `h1`, the SK index is empty, both caches empty. -/
def c7st : AppState :=
  { name_to_info := some [("X", ⟨"Natlan", "h1"⟩)]
    sk_name_to_info := some []
    country_data_cache := []
    sk_country_data_cache := []
    output_edit_1 := ""
    output_edit_2 := "" }

/-- C7 counterexample: `X` is in the index, the Natlan table file loads
successfully (to the empty JSON object), its table does not contain the
HID `h1` — yet `translate` reports the "translation data not found"
sentinel, not the literal `Unknown` the claim requires. -/
theorem C7_counterexample :
    dlookup [("X", (⟨"Natlan", "h1"⟩ : Info))] "X" = some ⟨"Natlan", "h1"⟩ ∧
    c7fs "Natlan" = CFile.table [] ∧
    dlookup ([] : CountryTable) "h1" = none ∧
    (translate c7fs "X" c7st).state.output_edit_1 = "未找到翻译数据信息" ∧
    ¬ (translate c7fs "X" c7st).state.output_edit_1 = "Unknown" := by
  decide

/-- C7 as amended: a name in the index whose country table loads
successfully to a NONEMPTY table that does not contain the name's HID
translates to the literal `Unknown` (an empty table instead falls into
the Python-falsy branch and yields the "translation data not found"
sentinel). -/
theorem C7_missing_hid_unknown (fs : String → CFile) (st : AppState)
    (idx idx2 : List (String × Info)) (text : String) (info : Info)
    (t : CountryTable) (hne : text ≠ "")
    (h1 : st.name_to_info = some idx) (h2 : st.sk_name_to_info = some idx2)
    (hl : dlookup idx text = some info)
    (hget : (get_country_data fs st.country_data_cache info.Country).1 =
      some t)
    (hnt : t ≠ []) (hh : dlookup t info.HID = none) :
    (translate fs text st).isOk = true ∧
    (translate fs text st).state.output_edit_1 = "Unknown" := by
  rw [translate_run fs text st idx idx2 hne h1 h2]
  refine ⟨rfl, ?_⟩
  simp [TResult.state, translateTrack, hl, hget, hnt, hh]

/-! ### Witnesses -/

/-- Witness for C2 at a one-entry dictionary whose `exegesis` carries
the aliases `x` and `y`. -/
def e2w : MainEntry := ⟨"M", "h", some "{x}{y}"⟩

theorem C2_witness :
    "x" ∈ find_aliases (e2w.exegesis.getD "") ∧
    "y" ∈ find_aliases (e2w.exegesis.getD "") ∧
    (translateTrack (buildIndex [("n", e2w)]) (fun _ => CFile.absent) [] "x" =
      translateTrack (buildIndex [("n", e2w)]) (fun _ => CFile.absent) [] "n" ∧
    translateTrack (buildIndex [("n", e2w)]) (fun _ => CFile.absent) [] "y" =
      translateTrack (buildIndex [("n", e2w)]) (fun _ => CFile.absent) [] "n") := by
  have h := C2_alias_translates_like_canonical [] [] "n" e2w "x" "y"
    (fun _ => CFile.absent) [] (by decide) (by decide) (by simp)
  exact ⟨by decide, by decide, h.1, h.2⟩

/-- App state for the C3 witness: `a` maps to country `M`, no cache,
no country files on disk. -/
def c3st : AppState :=
  { name_to_info := some [("a", ⟨"M", "h"⟩)]
    sk_name_to_info := some []
    country_data_cache := []
    sk_country_data_cache := []
    output_edit_1 := ""
    output_edit_2 := "" }

theorem C3_witness :
    ("a" : String) ≠ "" ∧
    (translate (fun _ => CFile.absent) "a" c3st).isOk = true ∧
    (translate (fun _ => CFile.absent) "a" c3st).state.output_edit_1 =
      "未找到翻译数据信息" := by
  have h := C3_absent_table_sentinel (fun _ => CFile.absent) c3st
    [("a", ⟨"M", "h"⟩)] [] "a" ⟨"M", "h"⟩ (by decide) rfl rfl (by decide)
    rfl rfl
  exact ⟨by decide, h.1, h.2⟩

/-- Cache for the C4 witness: Mondstadt already loaded. -/
def c4cache : List (String × CountryTable) :=
  [("Mondstadt", [("h", ⟨some "Jean"⟩)])]

theorem C4_witness :
    dlookup c4cache "Mondstadt" = some [("h", ⟨some "Jean"⟩)] ∧
    get_country_data (fun _ => CFile.malformed) c4cache "Mondstadt" =
      (some [("h", ⟨some "Jean"⟩)], c4cache) :=
  ⟨by decide,
    C4_cache_hit_no_reread c4cache "Mondstadt" [("h", ⟨some "Jean"⟩)]
      (by decide) (fun _ => CFile.malformed)⟩

theorem C5_witness :
    dlookup ([] : List (String × CountryTable)) "Natlan" = none ∧
    (fun _ => CFile.absent : String → CFile) "Natlan" = CFile.absent ∧
    get_country_data (fun _ => CFile.absent) [] "Natlan" = (none, []) ∧
    get_country_data (fun _ => CFile.table [("h", ⟨some "K"⟩)]) [] "Natlan" =
      (some [("h", ⟨some "K"⟩)],
        dinsert [] "Natlan" [("h", ⟨some "K"⟩)]) := by
  have h := C5_miss_not_cached (fun _ => CFile.absent) [] "Natlan" rfl
    (Or.inl rfl)
  exact ⟨rfl, rfl, h.1, h.2 (fun _ => CFile.table [("h", ⟨some "K"⟩)]) _ rfl⟩

/-- Colliding entries for the C6 witness: both define the alias `K`. -/
def e6a : MainEntry := ⟨"Mondstadt", "h1", some "a{K}b"⟩

/-- The later colliding entry for the C6 witness. -/
def e6b : MainEntry := ⟨"Natlan", "h2", some "{K}"⟩

theorem C6_witness :
    "K" ∈ entryKeys ("A", e6a) ∧
    "K" ∈ entryKeys ("B", e6b) ∧
    dlookup (buildIndex ([("A", e6a), ("B", e6b)] : MainData)) "K" =
      some (infoOf e6b) :=
  ⟨by decide, by decide,
    C6_later_entry_overwrites [] [] [] ("A", e6a) ("B", e6b) "K"
      (by decide) (by decide) (by simp)⟩

theorem C7_witness :
    ("X" : String) ≠ "" ∧
    dlookup [("X", (⟨"Natlan", "h1"⟩ : Info))] "X" = some ⟨"Natlan", "h1"⟩ ∧
    (get_country_data (fun _ => CFile.table [("g", ⟨some "Zed"⟩)])
      ([] : List (String × CountryTable)) "Natlan").1 =
        some [("g", ⟨some "Zed"⟩)] ∧
    ([("g", (⟨some "Zed"⟩ : CEntry))] : CountryTable) ≠ [] ∧
    dlookup [("g", (⟨some "Zed"⟩ : CEntry))] "h1" = none ∧
    (translate (fun _ => CFile.table [("g", ⟨some "Zed"⟩)]) "X" c7st).isOk =
      true ∧
    (translate (fun _ => CFile.table [("g", ⟨some "Zed"⟩)]) "X"
      c7st).state.output_edit_1 = "Unknown" := by
  have h := C7_missing_hid_unknown
    (fun _ => CFile.table [("g", ⟨some "Zed"⟩)]) c7st
    [("X", ⟨"Natlan", "h1"⟩)] [] "X" ⟨"Natlan", "h1"⟩
    [("g", ⟨some "Zed"⟩)] (by decide) rfl rfl (by decide) (by decide)
    (by decide) (by decide)
  exact ⟨by decide, by decide, by decide, by decide, by decide, h.1, h.2⟩

/-- App state for the C9 witness: both indexes loaded but empty. -/
def c9st : AppState :=
  { name_to_info := some []
    sk_name_to_info := some []
    country_data_cache := []
    sk_country_data_cache := []
    output_edit_1 := ""
    output_edit_2 := "" }

theorem C9_witness :
    ("zz" : String) ≠ "" ∧
    (translate (fun _ => CFile.absent) "zz" c9st).state.output_edit_1 =
      "无此翻译结果" ∧
    (translate (fun _ => CFile.absent) "zz" c9st).state.output_edit_2 =
      "无此翻译结果" := by
  have h := C9_unknown_input_sentinel (fun _ => CFile.absent) c9st [] []
    "zz" (by decide) rfl rfl
  exact ⟨by decide, h.1 rfl, h.2 rfl⟩

/-- App state for the C10 witness: `a` maps to country `M`; the file
system below parses `CsM.json` to the empty JSON object. -/
def c10st : AppState :=
  { name_to_info := some [("a", ⟨"M", "h"⟩)]
    sk_name_to_info := some []
    country_data_cache := []
    sk_country_data_cache := []
    output_edit_1 := ""
    output_edit_2 := "" }

theorem C10_witness :
    ("a" : String) ≠ "" ∧
    dlookup [("a", (⟨"M", "h"⟩ : Info))] "a" = some ⟨"M", "h"⟩ ∧
    (fun _ => CFile.table [] : String → CFile) "M" = CFile.table [] ∧
    (translate (fun _ => CFile.table []) "a" c10st).isOk = true ∧
    (translate (fun _ => CFile.table []) "a" c10st).state.output_edit_1 =
      "未找到翻译数据信息" ∧
    ¬ (translate (fun _ => CFile.table []) "a" c10st).state.output_edit_1 =
      "Unknown" ∧
    dlookup (translate (fun _ => CFile.table [])
      "a" c10st).state.country_data_cache "M" = some [] := by
  have h := C10_empty_table_cached_but_sentinel (fun _ => CFile.table [])
    c10st [("a", ⟨"M", "h"⟩)] [] "a" ⟨"M", "h"⟩ (by decide) rfl rfl
    (by decide) rfl rfl
  exact ⟨by decide, by decide, rfl, h.1, h.2.1, h.2.2.1, h.2.2.2⟩

end GITranslation
